import Mathlib

/-!
Verification of the asynchronous 3D segmentation job lifecycle manager.

The definitions below are a shallow embedding of the job subsystem of the
repository: the `Predict3d` page component (`src/client/pages/Predict3d.tsx`)
and the 3D endpoints of the API client (`src/client/lib/api-client.ts`).
React `useState` setters are modelled as record updates on an explicit
component state; the `setInterval`/`clearInterval` timer machinery is
modelled by an environment of active timers identified by increasing
numeric ids, with the `pollingRef` mutable ref holding the id of the most
recently created interval; each `async` handler is modelled as a function
of the component state and of the response its awaited remote call
resolves with.  Asynchrony is captured by a labelled small-step relation
in which an interval tick dispatches a status query (suspending at the
`await`) and a separate resolution step runs the remainder of the
callback.
-/

namespace Predict3D

/-- Opaque binary input handle: a selected `File` object. -/
structure FileHandle where
  name : String
deriving DecidableEq

/-- The `status` state of the `Predict3d` component:
`'idle' | 'processing' | 'completed' | 'error'`. -/
inductive JobStatus where
  | idle
  | processing
  | completed
  | error
deriving DecidableEq

/-- One `{volume_cm3, confidence}` entry of the metrics payload. -/
structure VolumeMetric where
  volume_cm3 : ℚ
  confidence : ℚ
deriving DecidableEq

/-- The metrics object of a completed poll response
(`get3DJobStatus` success payload, `src/client/lib/api-client.ts`). -/
structure SegMetrics where
  NCR : VolumeMetric
  ED : VolumeMetric
  ET : VolumeMetric
  Total : VolumeMetric
  tumor_type : String
  classification_confidence : ℚ
deriving DecidableEq

/-- JavaScript `a || b` for strings: the empty string is falsy. -/
def jsOr (a b : String) : String :=
  if a = "" then b else a

/-- The `useState`/`useRef` cells of the `Predict3d` component
(`src/client/pages/Predict3d.tsx`, lines 7-20).  `pollingRef` holds the id
of the most recently created interval; `clearInterval` does not reset it
to `none` (the source never assigns `pollingRef.current = null`). -/
structure ComponentState where
  t1File : Option FileHandle
  t1gdFile : Option FileHandle
  t2File : Option FileHandle
  flairFile : Option FileHandle
  isUploading : Bool
  jobId : Option String
  status : JobStatus
  metrics : Option SegMetrics
  error : Option String
  pollingRef : Option Nat
deriving DecidableEq

/-- Component state together with the timer environment: `active` lists the
currently active intervals as (timer id, polled job id) pairs — the job id
is the `id` argument captured by the `setInterval` callback closure —
and `nextTid` is the next fresh timer id (browser interval ids are
positive, so a stored id is always truthy). -/
structure Sys where
  comp : ComponentState
  active : List (Nat × String)
  nextTid : Nat
deriving DecidableEq

/-- The line `if (pollingRef.current) clearInterval(pollingRef.current)`:
cancels the referenced interval if one is referenced.  The ref itself is
left as is. -/
def clearCurrentInterval (s : Sys) : Sys :=
  match s.comp.pollingRef with
  | some t => { s with active := s.active.filter (fun p => p.1 != t) }
  | none => s

/-- `startPolling(id)` (`src/client/pages/Predict3d.tsx`, lines 74-95):
clears any referenced interval, then registers a fresh interval polling
`id` and stores its id in `pollingRef`. -/
def startPolling (id : String) (s : Sys) : Sys :=
  let s1 := clearCurrentInterval s
  { comp := { s1.comp with pollingRef := some s1.nextTid },
    active := (s1.nextTid, id) :: s1.active,
    nextTid := s1.nextTid + 1 }

/-- Resolution of the `submit3DSegmentationJob` request: the parsed success
payload `{success, job_id, prediction_id}`, or a thrown error with its
`message`. -/
inductive SubmitResult where
  | ok (success : Bool) (job_id : String) (prediction_id : String)
  | thrown (msg : String)
deriving DecidableEq

/-- Resolution of a `get3DJobStatus` request: the parsed payload
`{status, metrics?}`, or a thrown error with its `message`. -/
inductive PollResult where
  | ok (status : String) (metrics : Option SegMetrics)
  | thrown (msg : String)
deriving DecidableEq

/-- Resolution of the `clearAll3DData` request. -/
inductive ClearResult where
  | ok (message : String)
  | thrown (msg : String)
deriving DecidableEq

/-- A network request issued by the subsystem.  File arguments are carried
as the component cells they are read from. -/
inductive NetRequest where
  | submitJob (t1 t1gd t2 flair : Option FileHandle)
  | jobStatus (job : String)
  | downloadMask (job : String)
  | viewModality (job : String) (idx : Fin 4)
  | clearAll
deriving DecidableEq

/-- The validation error message of `handleSubmit`. -/
def validationMessage : String := "Please select all four MRI modalities."

/-- The guard `if (!t1File || !t1gdFile || !t2File || !flairFile)` of
`handleSubmit` (`src/client/pages/Predict3d.tsx`, line 39). -/
def missingAnyModality (c : ComponentState) : Bool :=
  c.t1File.isNone || c.t1gdFile.isNone || c.t2File.isNone || c.flairFile.isNone

/-- The synchronous pre-await writes of `handleSubmit`:
`setIsUploading(true); setError(null); setStatus('idle')`. -/
def submitStart (s : Sys) : Sys :=
  { s with comp := { s.comp with isUploading := true, error := none, status := .idle } }

/-- The post-await part of `handleSubmit`: the `response.success` branch
stores the job id, moves to `processing` and calls `startPolling`; the
`else` branch and the `catch` branch record an error; the `finally` clause
resets `isUploading`. -/
def submitFinish (s : Sys) (r : SubmitResult) : Sys :=
  let s1 :=
    match r with
    | .ok true jid _pid =>
        startPolling jid
          { s with comp := { s.comp with jobId := some jid, status := .processing } }
    | .ok false _ _ =>
        { s with comp := { s.comp with
            error := some "Submission failed. Please try again.", status := .error } }
    | .thrown m =>
        { s with comp := { s.comp with
            error := some (jsOr m "An error occurred during submission."), status := .error } }
  { s1 with comp := { s1.comp with isUploading := false } }

/-- `handleSubmit` (`src/client/pages/Predict3d.tsx`, lines 37-71) as one
function of the submission response, returning the new state and the list
of network requests it issued. -/
def handleSubmit (s : Sys) (r : SubmitResult) : Sys × List NetRequest :=
  if missingAnyModality s.comp then
    ({ s with comp := { s.comp with error := some validationMessage } }, [])
  else
    (submitFinish (submitStart s) r,
     [.submitJob s.comp.t1File s.comp.t1gdFile s.comp.t2File s.comp.flairFile])

/-- The body of the `setInterval` callback after its awaited status query
has resolved (`src/client/pages/Predict3d.tsx`, lines 77-93): the
`completed` branch stores the response metrics verbatim and clears the
referenced interval; the `error` branch and the `catch` branch record an
error and clear it; any other status leaves the state unchanged. -/
def applyPollResult (s : Sys) (r : PollResult) : Sys :=
  match r with
  | .ok st m =>
      if st = "completed" then
        clearCurrentInterval
          { s with comp := { s.comp with status := .completed, metrics := m } }
      else if st = "error" then
        clearCurrentInterval
          { s with comp := { s.comp with
              error := some "Processing failed on server.", status := .error } }
      else s
  | .thrown m =>
      clearCurrentInterval
        { s with comp := { s.comp with
            error := some (jsOr m "Failed to fetch job status."), status := .error } }

/-- `handleClearAll` (`src/client/pages/Predict3d.tsx`, lines 128-144):
only when the awaited `clearAll3DData` call succeeds are the four files,
the job id, the status, the metrics and the error reset and the referenced
interval cleared; on a thrown error only the error message is set. -/
def handleClearAll (s : Sys) (r : ClearResult) : Sys × List NetRequest :=
  match r with
  | .ok _ =>
      (clearCurrentInterval
        { s with comp := { s.comp with
            t1File := none, t1gdFile := none, t2File := none, flairFile := none,
            jobId := none, status := .idle, metrics := none, error := none } },
       [.clearAll])
  | .thrown m =>
      ({ s with comp := { s.comp with error := some (jsOr m "Failed to clear data.") } },
       [.clearAll])

/-- An error thrown by an API-client artifact call, as classified by the
spec taxonomy: an HTTP-level failure carrying status and message, the
locally constructed invalid-format failure, or a transport failure
(`status: 0`). -/
inductive ApiError where
  | http (status : Nat) (message : String)
  | format (status : Nat) (message : String)
  | network (message : String)
deriving DecidableEq

/-- The `message` field of a thrown API error object. -/
def ApiError.message : ApiError → String
  | .http _ m => m
  | .format _ m => m
  | .network m => m

/-- `handleDownloadMask` (`src/client/pages/Predict3d.tsx`, lines 98-113):
returns silently when no job id is stored (or it is the empty string,
which is falsy); otherwise issues the download request, and on a thrown
error records its message.  The DOM anchor-click download is a pure side
effect outside the state. -/
def handleDownloadMask (s : Sys) (r : Except ApiError (List Nat)) :
    Sys × List NetRequest :=
  match s.comp.jobId with
  | none => (s, [])
  | some j =>
      if j = "" then (s, [])
      else
        match r with
        | .ok _ => (s, [.downloadMask j])
        | .error e =>
            ({ s with comp := { s.comp with
                error := some (jsOr e.message "Failed to download mask.") } },
             [.downloadMask j])

/-- `handleViewModality` (`src/client/pages/Predict3d.tsx`, lines 116-125):
same guard as `handleDownloadMask`; on success the blob is opened in a new
tab (no state change). -/
def handleViewModality (s : Sys) (i : Fin 4) (r : Except ApiError (List Nat)) :
    Sys × List NetRequest :=
  match s.comp.jobId with
  | none => (s, [])
  | some j =>
      if j = "" then (s, [])
      else
        match r with
        | .ok _ => (s, [.viewModality j i])
        | .error e =>
            ({ s with comp := { s.comp with
                error := some (jsOr e.message "Failed to view modality.") } },
             [.viewModality j i])

/-- Whether the character list `needle` occurs contiguously inside `hay`,
starting at its head. -/
def startsWithChars : List Char → List Char → Bool
  | [], _ => true
  | _ :: _, [] => false
  | a :: as, b :: bs => a = b && startsWithChars as bs

/-- Whether `needle` occurs contiguously anywhere inside `hay`. -/
def containsChars (hay needle : List Char) : Bool :=
  match hay with
  | [] => needle.isEmpty
  | _ :: t => startsWithChars needle hay || containsChars t needle

/-- JavaScript `hay.includes(needle)` on strings. -/
def containsSubstring (hay needle : String) : Bool :=
  containsChars hay.data needle.data

/-- An HTTP response as observed by the API client: the `ok` flag, the
status code, the declared `content-type` header (absent headers read as
`null`), the binary body, and the truthy `message` field of the parsed
error body when one exists. -/
structure HttpResp where
  ok : Bool
  status : Nat
  contentType : Option String
  body : List Nat
  errMessage : Option String
deriving DecidableEq

/-- The outcome of a `fetch` call: a response, or a thrown transport error
with its `message`. -/
inductive FetchOutcome where
  | response (r : HttpResp)
  | fetchFailed (msg : String)
deriving DecidableEq

/-- `getErrorMessage` of the API client
(`src/client/lib/api-client.ts`, lines 118-130). -/
def getErrorMessage (status : Nat) : String :=
  if status = 400 then "Invalid request. Please check your input."
  else if status = 401 then "Unauthorized. Please log in."
  else if status = 403 then "Access denied."
  else if status = 404 then "Resource not found."
  else if status = 408 then "Request timeout. Please try again."
  else if status = 413 then "File too large. Maximum 50MB allowed."
  else if status = 500 then "Server error. Please try again later."
  else if status = 503 then "Service unavailable. Please try again later."
  else "An error occurred. Please try again."

/-- The message of the error thrown on a non-`ok` response:
`errorData.message || this.getErrorMessage(response.status)`. -/
def httpThrowMessage (r : HttpResp) : String :=
  jsOr (r.errMessage.getD "") (getErrorMessage r.status)

/-- The message of the locally thrown invalid-format error of
`download3DSegmentationMask`. -/
def invalidFormatMessage : String := "Invalid response format. Expected binary file."

/-- The expected declared content kind of the mask download. -/
def octetStreamKind : String := "application/octet-stream"

/-- The content-kind acceptance test of `download3DSegmentationMask`:
`contentType && contentType.includes('application/octet-stream')`. -/
def declaredOctetStream : Option String → Bool
  | none => false
  | some ct => containsSubstring ct octetStreamKind

/-- `download3DSegmentationMask` (`src/client/lib/api-client.ts`, lines
371-409): on a non-`ok` response throws the HTTP error; on an `ok`
response whose declared content kind does not include
`application/octet-stream` throws the invalid-format error; otherwise
returns the body blob; a transport failure is wrapped as a `status: 0`
error with a default message.  The 401 session-invalidation side effect on
the auth collaborator is outside the modelled state. -/
def download3DSegmentationMask (o : FetchOutcome) : Except ApiError (List Nat) :=
  match o with
  | .fetchFailed m =>
      .error (.network (jsOr m "Failed to download segmentation mask."))
  | .response r =>
      if r.ok then
        if declaredOctetStream r.contentType then .ok r.body
        else .error (.format 500 invalidFormatMessage)
      else .error (.http r.status (httpThrowMessage r))

/-- `view3DModality` (`src/client/lib/api-client.ts`, lines 417-448): the
same shape as the mask download but with no content-kind check — every
`ok` response yields its body blob. -/
def view3DModality (o : FetchOutcome) : Except ApiError (List Nat) :=
  match o with
  | .fetchFailed m =>
      .error (.network (jsOr m "Failed to view modality."))
  | .response r =>
      if r.ok then .ok r.body
      else .error (.http r.status (httpThrowMessage r))

/-- The initial component state: all cells empty, status `idle`. -/
def initComponentState : ComponentState :=
  { t1File := none, t1gdFile := none, t2File := none, flairFile := none,
    isUploading := false, jobId := none, status := .idle, metrics := none,
    error := none, pollingRef := none }

/-- The initial system: no active timers, first interval id 1. -/
def initSys : Sys :=
  { comp := initComponentState, active := [], nextTid := 1 }

/-- `handleFileChange` storing the selected file into the cell of the
given modality (0: T1, 1: T1GD, 2: T2, 3: FLAIR). -/
def setModality (c : ComponentState) (m : Fin 4) (f : FileHandle) : ComponentState :=
  match m with
  | 0 => { c with t1File := some f }
  | 1 => { c with t1gdFile := some f }
  | 2 => { c with t2File := some f }
  | 3 => { c with flairFile := some f }

/-- A configuration of the event loop: the system state, the in-flight
status queries — one `(timer id, job)` entry per interval callback
suspended at its `await` — and the number of in-flight submissions. -/
structure Config where
  sys : Sys
  inFlight : List (Nat × String)
  pendingSubmits : Nat
deriving DecidableEq

/-- The initial configuration. -/
def initConfig : Config :=
  { sys := initSys, inFlight := [], pendingSubmits := 0 }

/-- Observable labels of the small-step semantics.  `pollReq t j` is the
dispatch of one status query for job `j` by interval `t`. -/
inductive Label where
  | pollReq (t : Nat) (job : String)
  | pollRes (t : Nat) (job : String) (r : PollResult)
  | submitReq (t1 t1gd t2 flair : Option FileHandle)
  | submitRejected
  | submitRes (r : SubmitResult)
  | clearRes (r : ClearResult)
  | maskRes (r : Except ApiError (List Nat))
  | viewRes (i : Fin 4) (r : Except ApiError (List Nat))
  | selected (m : Fin 4) (f : FileHandle)
  | unmounted

/-- Small-step semantics of the subsystem under the browser event loop.
A `tick` can fire only for an interval in the active set; its callback
dispatches the status query for the job captured by its closure and
suspends, so several queries of one interval may be in flight at once.
`pollResolve` runs the rest of the callback on the response the
environment chose.  `submitBegin`/`submitResolve` split `handleSubmit`
around its `await`; `submitDenied` is its synchronous validation exit.
The remaining handlers contain no state writes before their `await`, so
they are applied at resolution time in one step. -/
inductive Step : Config → Label → Config → Prop where
  | tick (cfg : Config) (t : Nat) (j : String) :
      (t, j) ∈ cfg.sys.active →
      Step cfg (.pollReq t j) { cfg with inFlight := (t, j) :: cfg.inFlight }
  | pollResolve (cfg : Config) (t : Nat) (j : String) (r : PollResult) :
      (t, j) ∈ cfg.inFlight →
      Step cfg (.pollRes t j r)
        { sys := applyPollResult cfg.sys r,
          inFlight := cfg.inFlight.erase (t, j),
          pendingSubmits := cfg.pendingSubmits }
  | submitDenied (cfg : Config) :
      missingAnyModality cfg.sys.comp = true →
      Step cfg .submitRejected
        { cfg with sys := { cfg.sys with comp :=
            { cfg.sys.comp with error := some validationMessage } } }
  | submitBegin (cfg : Config) :
      missingAnyModality cfg.sys.comp = false →
      Step cfg (.submitReq cfg.sys.comp.t1File cfg.sys.comp.t1gdFile
                 cfg.sys.comp.t2File cfg.sys.comp.flairFile)
        { cfg with sys := submitStart cfg.sys,
                   pendingSubmits := cfg.pendingSubmits + 1 }
  | submitResolve (cfg : Config) (r : SubmitResult) :
      0 < cfg.pendingSubmits →
      Step cfg (.submitRes r)
        { cfg with sys := submitFinish cfg.sys r,
                   pendingSubmits := cfg.pendingSubmits - 1 }
  | clearResolve (cfg : Config) (r : ClearResult) :
      Step cfg (.clearRes r) { cfg with sys := (handleClearAll cfg.sys r).1 }
  | maskResolve (cfg : Config) (r : Except ApiError (List Nat)) :
      Step cfg (.maskRes r) { cfg with sys := (handleDownloadMask cfg.sys r).1 }
  | viewResolve (cfg : Config) (i : Fin 4) (r : Except ApiError (List Nat)) :
      Step cfg (.viewRes i r) { cfg with sys := (handleViewModality cfg.sys i r).1 }
  | selectModality (cfg : Config) (m : Fin 4) (f : FileHandle) :
      Step cfg (.selected m f)
        { cfg with sys := { cfg.sys with comp := setModality cfg.sys.comp m f } }
  | unmountTeardown (cfg : Config) :
      Step cfg .unmounted { cfg with sys := clearCurrentInterval cfg.sys }

/-- A step under some label. -/
def StepAny (c c' : Config) : Prop := ∃ l, Step c l c'

/-- Finitely many steps. -/
def Steps : Config → Config → Prop := Relation.ReflTransGen StepAny

/-- Reachability from the initial configuration. -/
def Reachable (c : Config) : Prop := Steps initConfig c

/-- The job identified by the stored job id is in a terminal state. -/
def TerminalFor (j : String) (c : Config) : Prop :=
  c.sys.comp.jobId = some j ∧
    (c.sys.comp.status = .completed ∨ c.sys.comp.status = .error)

/-- The interval referenced by `pollingRef`, if any, is not active. -/
def refTimerInactive (s : Sys) : Prop :=
  ∀ t j, s.comp.pollingRef = some t → (t, j) ∉ s.active

/-- Every active interval has an id below the next fresh id. -/
def WFSys (s : Sys) : Prop := ∀ p ∈ s.active, p.1 < s.nextTid

/-- Interval `t` is dead: it is inactive and its id is stale, so no later
step can ever recreate or fire it. -/
def TimerDead (t : Nat) (s : Sys) : Prop :=
  (∀ j, (t, j) ∉ s.active) ∧ t < s.nextTid

/-- No tick of interval `t` ever occurs from `c` onward. -/
def NeverTicksAgain (t : Nat) (c : Config) : Prop :=
  ∀ c' c'' j, Steps c c' → ¬ Step c' (.pollReq t j) c''

/-- The referenced interval id, if any, is below the fresh-id counter. -/
def RefBound (s : Sys) : Prop :=
  ∀ t, s.comp.pollingRef = some t → t < s.nextTid

/-- The single-timer shape invariant: either no interval is active, or
exactly the one referenced by `pollingRef` is. -/
def TimerInv (s : Sys) : Prop :=
  s.active = [] ∨ ∃ t j, s.comp.pollingRef = some t ∧ s.active = [(t, j)]

/-- A poll response that takes one of the three loop-terminating branches
of the interval callback. -/
def isTerminalPoll : PollResult → Bool
  | .ok st _ => st == "completed" || st == "error"
  | .thrown _ => true

/-- A poll response that takes one of the two failure branches of the
interval callback (server-reported error, or thrown transport error). -/
def isFailedPoll : PollResult → Bool
  | .ok st _ => st == "error"
  | .thrown _ => true

/-- Demonstration inputs: the four selected modality files. -/
def fT1 : FileHandle := ⟨"t1.nii.gz"⟩

def fT1gd : FileHandle := ⟨"t1gd.nii.gz"⟩

def fT2 : FileHandle := ⟨"t2.nii.gz"⟩

def fFlair : FileHandle := ⟨"flair.nii.gz"⟩

/-- Configurations of a demonstration run: the four files are selected,
then a submission succeeds with job id `A`, starting interval 1. -/
def cx1 : Config :=
  { initConfig with sys :=
      { initConfig.sys with comp := setModality initConfig.sys.comp 0 fT1 } }

def cx2 : Config :=
  { cx1 with sys := { cx1.sys with comp := setModality cx1.sys.comp 1 fT1gd } }

def cx3 : Config :=
  { cx2 with sys := { cx2.sys with comp := setModality cx2.sys.comp 2 fT2 } }

def cx4 : Config :=
  { cx3 with sys := { cx3.sys with comp := setModality cx3.sys.comp 3 fFlair } }

def cx5 : Config :=
  { cx4 with sys := submitStart cx4.sys, pendingSubmits := cx4.pendingSubmits + 1 }

def cx6 : Config :=
  { cx5 with sys := submitFinish cx5.sys (.ok true "A" "P"),
             pendingSubmits := cx5.pendingSubmits - 1 }

/-- Continuation of the run: a second submission is begun while job `A`
is still polling, and it fails with a thrown transport error. -/
def cx7 : Config :=
  { cx6 with sys := submitStart cx6.sys, pendingSubmits := cx6.pendingSubmits + 1 }

def cx8 : Config :=
  { cx7 with sys := submitFinish cx7.sys (.thrown "boom"),
             pendingSubmits := cx7.pendingSubmits - 1 }

/-- Continuation of the run instead by two consecutive ticks of interval 1
with neither status query yet resolved. -/
def dx7 : Config := { cx6 with inFlight := (1, "A") :: cx6.inFlight }

def dx8 : Config := { dx7 with inFlight := (1, "A") :: dx7.inFlight }

/-- A state with job `A` processing under active interval 1 and all four
files selected. -/
def sProc : Sys :=
  { comp := { t1File := some fT1, t1gdFile := some fT1gd, t2File := some fT2,
              flairFile := some fFlair, isUploading := false, jobId := some "A",
              status := .processing, metrics := none, error := none,
              pollingRef := some 1 },
    active := [(1, "A")], nextTid := 2 }

/-- A state with job `J1` failed after a poll error: the interval was
cleared but the job id is still stored. -/
def sFailed : Sys :=
  { comp := { t1File := some fT1, t1gdFile := some fT1gd, t2File := some fT2,
              flairFile := some fFlair, isUploading := false, jobId := some "J1",
              status := .error, metrics := none,
              error := some "Processing failed on server.", pollingRef := some 1 },
    active := [], nextTid := 2 }

/-- A state with no job id stored. -/
def sNoJob : Sys :=
  { comp := initComponentState, active := [], nextTid := 1 }

/-- Demonstration metrics whose `Total` volume is not the sum of the three
part volumes, so verbatim storage is observably different from
recomputation. -/
def demoMetrics : SegMetrics :=
  { NCR := ⟨1, 1⟩, ED := ⟨1, 1⟩, ET := ⟨1, 1⟩, Total := ⟨100, 1⟩,
    tumor_type := "glioma", classification_confidence := 1 }

/-- A state missing the FLAIR file. -/
def sThreeFiles : Sys :=
  { comp := { t1File := some fT1, t1gdFile := some fT1gd, t2File := some fT2,
              flairFile := none, isUploading := false, jobId := none,
              status := .idle, metrics := none, error := none, pollingRef := none },
    active := [], nextTid := 1 }

/-- A configuration with one status query for job `A` in flight on
interval 1. -/
def cfgPoll : Config :=
  { sys := sProc, inFlight := [(1, "A")], pendingSubmits := 0 }

/-- `cfgPoll` after its query resolved `completed` with `demoMetrics`. -/
def cfgPollDone : Config :=
  { sys := applyPollResult cfgPoll.sys (.ok "completed" (some demoMetrics)),
    inFlight := cfgPoll.inFlight.erase (1, "A"),
    pendingSubmits := cfgPoll.pendingSubmits }

/-- `cfgPoll` after its query resolved with server-reported `error`. -/
def cfgPollErr : Config :=
  { sys := applyPollResult cfgPoll.sys (.ok "error" none),
    inFlight := cfgPoll.inFlight.erase (1, "A"),
    pendingSubmits := cfgPoll.pendingSubmits }

/-- `cfgPoll` after its query threw a transport error. -/
def cfgPollNet : Config :=
  { sys := applyPollResult cfgPoll.sys (.thrown "network down"),
    inFlight := cfgPoll.inFlight.erase (1, "A"),
    pendingSubmits := cfgPoll.pendingSubmits }

/-- An `ok` response declaring the expected binary kind. -/
def okResp : HttpResp :=
  { ok := true, status := 200, contentType := some "application/octet-stream",
    body := [1, 2, 3], errMessage := none }

/-- An `ok` response declaring a JSON kind. -/
def badResp : HttpResp :=
  { ok := true, status := 200, contentType := some "application/json",
    body := [1, 2, 3], errMessage := none }

/-- An `ok` response declaring an HTML kind. -/
def weirdResp : HttpResp :=
  { ok := true, status := 200, contentType := some "text/html",
    body := [9], errMessage := none }

theorem clearCurrent_comp (s : Sys) : (clearCurrentInterval s).comp = s.comp := by
  unfold clearCurrentInterval
  split <;> rfl

theorem clearCurrent_nextTid (s : Sys) :
    (clearCurrentInterval s).nextTid = s.nextTid := by
  unfold clearCurrentInterval
  split <;> rfl

theorem mem_clearCurrent {s : Sys} {p : Nat × String}
    (h : p ∈ (clearCurrentInterval s).active) : p ∈ s.active := by
  unfold clearCurrentInterval at h
  split at h
  · exact (List.mem_filter.mp h).1
  · exact h

theorem clearCurrent_ref_inactive (s : Sys) :
    refTimerInactive (clearCurrentInterval s) := by
  intro t j h
  rw [clearCurrent_comp] at h
  simp only [clearCurrentInterval, h]
  intro hmem
  have := (List.mem_filter.mp hmem).2
  simp at this

theorem startPolling_comp (id : String) (s : Sys) :
    (startPolling id s).comp = { s.comp with pollingRef := some s.nextTid } := by
  simp only [startPolling, clearCurrent_comp, clearCurrent_nextTid]

theorem startPolling_nextTid (id : String) (s : Sys) :
    (startPolling id s).nextTid = s.nextTid + 1 := by
  simp only [startPolling, clearCurrent_nextTid]

theorem startPolling_active (id : String) (s : Sys) :
    (startPolling id s).active = (s.nextTid, id) :: (clearCurrentInterval s).active := by
  simp only [startPolling, clearCurrent_nextTid]

theorem applyPollResult_nextTid (s : Sys) (r : PollResult) :
    (applyPollResult s r).nextTid = s.nextTid := by
  cases r with
  | ok st m =>
      by_cases h1 : st = "completed"
      · simp [applyPollResult, h1, clearCurrent_nextTid]
      · by_cases h2 : st = "error" <;>
          simp [applyPollResult, h1, h2, clearCurrent_nextTid]
  | thrown m => simp [applyPollResult, clearCurrent_nextTid]

theorem mem_applyPollResult {s : Sys} {r : PollResult} {p : Nat × String}
    (h : p ∈ (applyPollResult s r).active) : p ∈ s.active := by
  cases r with
  | ok st m =>
      by_cases h1 : st = "completed"
      · subst h1
        simp only [applyPollResult, if_pos] at h
        have h2 := mem_clearCurrent h
        exact h2
      · by_cases h2 : st = "error"
        · subst h2
          simp [applyPollResult] at h
          have h3 := mem_clearCurrent h
          exact h3
        · simpa [applyPollResult, h1, h2] using h
  | thrown m =>
      simp only [applyPollResult] at h
      have h2 := mem_clearCurrent h
      exact h2

theorem applyPollResult_ref (s : Sys) (r : PollResult) :
    (applyPollResult s r).comp.pollingRef = s.comp.pollingRef := by
  cases r with
  | ok st m =>
      by_cases h1 : st = "completed"
      · simp [applyPollResult, h1, clearCurrent_comp]
      · by_cases h2 : st = "error" <;>
          simp [applyPollResult, h1, h2, clearCurrent_comp]
  | thrown m => simp [applyPollResult, clearCurrent_comp]

theorem applyPollResult_metrics (s : Sys) (r : PollResult) :
    (applyPollResult s r).comp.metrics = s.comp.metrics ∨
      ∃ m, r = .ok "completed" m ∧ (applyPollResult s r).comp.metrics = m := by
  cases r with
  | ok st m =>
      by_cases h1 : st = "completed"
      · subst h1
        exact .inr ⟨m, rfl, by simp [applyPollResult, clearCurrent_comp]⟩
      · by_cases h2 : st = "error" <;>
          exact .inl (by simp [applyPollResult, h1, h2, clearCurrent_comp])
  | thrown m => exact .inl (by simp [applyPollResult, clearCurrent_comp])

theorem submitFinish_ok_true_active (s : Sys) (jid pid : String) :
    (submitFinish s (.ok true jid pid)).active =
      (s.nextTid, jid) ::
        (clearCurrentInterval
          { s with comp := { s.comp with jobId := some jid, status := .processing } }).active := by
  simp [submitFinish, startPolling_active]

theorem submitFinish_ok_true_nextTid (s : Sys) (jid pid : String) :
    (submitFinish s (.ok true jid pid)).nextTid = s.nextTid + 1 := by
  simp [submitFinish, startPolling_nextTid]

theorem submitFinish_ok_true_ref (s : Sys) (jid pid : String) :
    (submitFinish s (.ok true jid pid)).comp.pollingRef = some s.nextTid := by
  simp [submitFinish, startPolling_comp]

theorem submitFinish_metrics (s : Sys) (r : SubmitResult) :
    (submitFinish s r).comp.metrics = s.comp.metrics := by
  cases r with
  | ok success jid pid =>
      cases success <;> simp [submitFinish, startPolling_comp]
  | thrown m => simp [submitFinish]

theorem handleClearAll_ok (s : Sys) (msg : String) :
    (handleClearAll s (.ok msg)).1 =
      clearCurrentInterval
        { s with comp := { s.comp with
            t1File := none, t1gdFile := none, t2File := none, flairFile := none,
            jobId := none, status := .idle, metrics := none, error := none } } := rfl

theorem handleDownloadMask_sys (s : Sys) (r : Except ApiError (List Nat)) :
    (handleDownloadMask s r).1.active = s.active ∧
      (handleDownloadMask s r).1.nextTid = s.nextTid ∧
      (handleDownloadMask s r).1.comp.pollingRef = s.comp.pollingRef ∧
      (handleDownloadMask s r).1.comp.metrics = s.comp.metrics := by
  cases hj : s.comp.jobId with
  | none => simp [handleDownloadMask, hj]
  | some j =>
      by_cases he : j = ""
      · simp [handleDownloadMask, hj, he]
      · cases r <;> simp [handleDownloadMask, hj, he]

theorem handleViewModality_sys (s : Sys) (i : Fin 4) (r : Except ApiError (List Nat)) :
    (handleViewModality s i r).1.active = s.active ∧
      (handleViewModality s i r).1.nextTid = s.nextTid ∧
      (handleViewModality s i r).1.comp.pollingRef = s.comp.pollingRef ∧
      (handleViewModality s i r).1.comp.metrics = s.comp.metrics := by
  cases hj : s.comp.jobId with
  | none => simp [handleViewModality, hj]
  | some j =>
      by_cases he : j = ""
      · simp [handleViewModality, hj, he]
      · cases r <;> simp [handleViewModality, hj, he]

theorem setModality_spec (c : ComponentState) (m : Fin 4) (f : FileHandle) :
    (setModality c m f).pollingRef = c.pollingRef ∧
      (setModality c m f).metrics = c.metrics ∧
      (setModality c m f).status = c.status := by
  fin_cases m <;> simp [setModality]

/-- Timer accounting of one step: every interval active afterwards either
was active before or is the freshly allocated one; the fresh-id counter
never decreases; and the reference either is unchanged or points at the
freshly allocated interval. -/
theorem step_timer_account {c c' : Config} {l : Label} (h : Step c l c') :
    (∀ p ∈ c'.sys.active,
        p ∈ c.sys.active ∨ (p.1 = c.sys.nextTid ∧ c.sys.nextTid < c'.sys.nextTid))
    ∧ c.sys.nextTid ≤ c'.sys.nextTid
    ∧ (c'.sys.comp.pollingRef = c.sys.comp.pollingRef ∨
        (c'.sys.comp.pollingRef = some c.sys.nextTid ∧ c.sys.nextTid < c'.sys.nextTid)) := by
  cases h with
  | tick t j hm =>
      exact ⟨fun p hp => .inl hp, le_refl _, .inl rfl⟩
  | pollResolve t j r hm =>
      refine ⟨fun p hp => .inl (mem_applyPollResult hp), ?_, .inl (applyPollResult_ref _ _)⟩
      rw [applyPollResult_nextTid]
  | submitDenied hmiss =>
      exact ⟨fun p hp => .inl hp, le_refl _, .inl rfl⟩
  | submitBegin hmiss =>
      exact ⟨fun p hp => .inl hp, le_refl _, .inl rfl⟩
  | submitResolve r hp =>
      cases r with
      | ok success jid pid =>
          cases success with
          | false => exact ⟨fun p hp => .inl hp, le_refl _, .inl rfl⟩
          | true =>
              refine ⟨?_, ?_, ?_⟩
              · intro p hp
                rw [submitFinish_ok_true_active] at hp
                rcases List.mem_cons.mp hp with hp | hp
                · refine .inr ⟨by rw [hp], ?_⟩
                  rw [submitFinish_ok_true_nextTid]
                  omega
                · have h2 := mem_clearCurrent hp
                  exact .inl h2
              · rw [submitFinish_ok_true_nextTid]
                omega
              · have h3 := submitFinish_ok_true_ref c.sys jid pid
                refine .inr ⟨h3, ?_⟩
                rw [submitFinish_ok_true_nextTid]
                omega
      | thrown m => exact ⟨fun p hp => .inl hp, le_refl _, .inl rfl⟩
  | clearResolve r =>
      cases r with
      | ok msg =>
          refine ⟨?_, ?_, .inl ?_⟩
          · intro p hp
            rw [handleClearAll_ok] at hp
            have h2 := mem_clearCurrent hp
            exact .inl h2
          · rw [handleClearAll_ok, clearCurrent_nextTid]
          · rw [handleClearAll_ok, clearCurrent_comp]
      | thrown m => exact ⟨fun p hp => .inl hp, le_refl _, .inl rfl⟩
  | maskResolve r =>
      obtain ⟨ha, hn, hr, _⟩ := handleDownloadMask_sys c.sys r
      exact ⟨fun p hp => .inl (ha ▸ hp), le_of_eq hn.symm, .inl hr⟩
  | viewResolve i r =>
      obtain ⟨ha, hn, hr, _⟩ := handleViewModality_sys c.sys i r
      exact ⟨fun p hp => .inl (ha ▸ hp), le_of_eq hn.symm, .inl hr⟩
  | selectModality m f =>
      exact ⟨fun p hp => .inl hp, le_refl _, .inl (setModality_spec _ _ _).1⟩
  | unmountTeardown =>
      refine ⟨fun p hp => .inl ?_, le_of_eq (clearCurrent_nextTid _).symm,
        .inl (congrArg ComponentState.pollingRef (clearCurrent_comp _))⟩
      have h2 := mem_clearCurrent hp
      exact h2

/-- Well-formedness is preserved by every step. -/
theorem wf_step {c c' : Config} {l : Label} (h : Step c l c')
    (hwf : WFSys c.sys) : WFSys c'.sys := by
  obtain ⟨hsup, hle, _⟩ := step_timer_account h
  intro p hp
  rcases hsup p hp with hmem | ⟨hfst, hlt⟩
  · exact lt_of_lt_of_le (hwf p hmem) hle
  · omega

/-- A dead interval stays dead across one step. -/
theorem timerDead_step {c c' : Config} {l : Label} {t : Nat} (h : Step c l c')
    (hd : TimerDead t c.sys) : TimerDead t c'.sys := by
  obtain ⟨hin, hlt⟩ := hd
  obtain ⟨hsup, hle, _⟩ := step_timer_account h
  refine ⟨fun j hj => ?_, lt_of_lt_of_le hlt hle⟩
  rcases hsup _ hj with hmem | ⟨hfst, _⟩
  · exact hin j hmem
  · simp at hfst
    omega

/-- A dead interval stays dead across any number of steps. -/
theorem timerDead_steps {c c' : Config} {t : Nat} (h : Steps c c')
    (hd : TimerDead t c.sys) : TimerDead t c'.sys := by
  induction h with
  | refl => exact hd
  | tail _ h2 ih =>
      obtain ⟨l, hstep⟩ := h2
      exact timerDead_step hstep ih

/-- A dead interval never fires again. -/
theorem timerDead_neverTicks {t : Nat} {c : Config} (hd : TimerDead t c.sys) :
    NeverTicksAgain t c := by
  intro c' c'' j hs hstep
  have hd' := timerDead_steps hs hd
  cases hstep with
  | tick t' j' hm => exact hd'.1 _ hm

theorem refBound_step {c c' : Config} {l : Label} (h : Step c l c')
    (hb : RefBound c.sys) : RefBound c'.sys := by
  obtain ⟨_, hle, href⟩ := step_timer_account h
  intro t ht
  rcases href with he | ⟨he, hlt⟩
  · exact lt_of_lt_of_le (hb t (he ▸ ht)) hle
  · rw [he] at ht
    obtain rfl := Option.some.inj ht
    exact hlt

theorem wf_steps {c c' : Config} (h : Steps c c') (hwf : WFSys c.sys) :
    WFSys c'.sys := by
  induction h with
  | refl => exact hwf
  | tail _ h2 ih =>
      obtain ⟨l, hstep⟩ := h2
      exact wf_step hstep ih

theorem refBound_steps {c c' : Config} (h : Steps c c') (hb : RefBound c.sys) :
    RefBound c'.sys := by
  induction h with
  | refl => exact hb
  | tail _ h2 ih =>
      obtain ⟨l, hstep⟩ := h2
      exact refBound_step hstep ih

theorem initConfig_wf : WFSys initConfig.sys := by
  intro p hp
  simp [initConfig, initSys] at hp

theorem initConfig_refBound : RefBound initConfig.sys := by
  intro t ht
  simp [initConfig, initSys, initComponentState] at ht

theorem reachable_wf {c : Config} (h : Reachable c) : WFSys c.sys :=
  wf_steps h initConfig_wf

theorem reachable_refBound {c : Config} (h : Reachable c) : RefBound c.sys :=
  refBound_steps h initConfig_refBound

theorem timerInv_of_eq {s s' : Sys} (h : TimerInv s)
    (ha : s'.active = s.active) (hr : s'.comp.pollingRef = s.comp.pollingRef) :
    TimerInv s' := by
  rcases h with h | ⟨t, j, href, hact⟩
  · exact .inl (ha.trans h)
  · exact .inr ⟨t, j, hr.trans href, ha.trans hact⟩

theorem clearCurrent_nil_of_inv (s : Sys) (h : TimerInv s) :
    (clearCurrentInterval s).active = [] := by
  rcases h with h | ⟨t, j, href, hact⟩
  · unfold clearCurrentInterval
    split <;> simp [h]
  · simp [clearCurrentInterval, href, hact]

theorem timerInv_startPolling (id : String) (s : Sys) (h : TimerInv s) :
    TimerInv (startPolling id s) := by
  refine .inr ⟨s.nextTid, id, ?_, ?_⟩
  · rw [startPolling_comp]
  · rw [startPolling_active, clearCurrent_nil_of_inv s h]

theorem timerInv_applyPollResult (s : Sys) (r : PollResult) (h : TimerInv s) :
    TimerInv (applyPollResult s r) := by
  cases r with
  | ok st m =>
      by_cases h1 : st = "completed"
      · subst h1
        simp only [applyPollResult, if_pos]
        exact .inl (clearCurrent_nil_of_inv _ (timerInv_of_eq h rfl rfl))
      · by_cases h2 : st = "error"
        · subst h2
          simp [applyPollResult]
          exact .inl (clearCurrent_nil_of_inv _ (timerInv_of_eq h rfl rfl))
        · simpa [applyPollResult, h1, h2] using h
  | thrown m =>
      simp only [applyPollResult]
      exact .inl (clearCurrent_nil_of_inv _ (timerInv_of_eq h rfl rfl))

theorem timerInv_step {c c' : Config} {l : Label} (h : Step c l c')
    (hin : TimerInv c.sys) : TimerInv c'.sys := by
  cases h with
  | tick t j hm => exact hin
  | pollResolve t j r hm => exact timerInv_applyPollResult _ _ hin
  | submitDenied hmiss => exact timerInv_of_eq hin rfl rfl
  | submitBegin hmiss => exact timerInv_of_eq hin rfl rfl
  | submitResolve r hp =>
      cases r with
      | ok success jid pid =>
          cases success with
          | false => exact timerInv_of_eq hin rfl rfl
          | true =>
              have h1 := timerInv_startPolling jid
                { c.sys with comp := { c.sys.comp with
                    jobId := some jid, status := .processing } }
                (timerInv_of_eq hin rfl rfl)
              exact timerInv_of_eq h1 rfl rfl
      | thrown m => exact timerInv_of_eq hin rfl rfl
  | clearResolve r =>
      cases r with
      | ok msg =>
          exact .inl (clearCurrent_nil_of_inv _ (timerInv_of_eq hin rfl rfl))
      | thrown m => exact timerInv_of_eq hin rfl rfl
  | maskResolve r =>
      obtain ⟨ha, _, hr, _⟩ := handleDownloadMask_sys c.sys r
      exact timerInv_of_eq hin ha hr
  | viewResolve i r =>
      obtain ⟨ha, _, hr, _⟩ := handleViewModality_sys c.sys i r
      exact timerInv_of_eq hin ha hr
  | selectModality m f =>
      exact timerInv_of_eq hin rfl (setModality_spec _ _ _).1
  | unmountTeardown =>
      exact .inl (clearCurrent_nil_of_inv _ hin)

theorem timerInv_reachable {c : Config} (h : Reachable c) : TimerInv c.sys := by
  unfold Reachable Steps at h
  induction h with
  | refl => exact .inl rfl
  | tail _ h2 ih =>
      obtain ⟨l, hstep⟩ := h2
      exact timerInv_step hstep ih

theorem reach_cx6 : Reachable cx6 := by
  have r1 : Steps initConfig cx1 :=
    Relation.ReflTransGen.single ⟨_, Step.selectModality initConfig 0 fT1⟩
  have r2 : Steps initConfig cx2 := r1.tail ⟨_, Step.selectModality cx1 1 fT1gd⟩
  have r3 : Steps initConfig cx3 := r2.tail ⟨_, Step.selectModality cx2 2 fT2⟩
  have r4 : Steps initConfig cx4 := r3.tail ⟨_, Step.selectModality cx3 3 fFlair⟩
  have r5 : Steps initConfig cx5 := r4.tail ⟨_, Step.submitBegin cx4 (by decide)⟩
  exact r5.tail ⟨_, Step.submitResolve cx5 (.ok true "A" "P") (by decide)⟩

theorem reach_cx8 : Reachable cx8 := by
  have r7 : Steps initConfig cx7 := reach_cx6.tail ⟨_, Step.submitBegin cx6 (by decide)⟩
  exact r7.tail ⟨_, Step.submitResolve cx7 (.thrown "boom") (by decide)⟩

theorem reach_dx8 : Reachable dx8 := by
  have r7 : Steps initConfig dx7 := reach_cx6.tail ⟨_, Step.tick cx6 1 "A" (by decide)⟩
  exact r7.tail ⟨_, Step.tick dx7 1 "A" (by decide)⟩

/-- Metrics accounting of one step: the stored metrics are unchanged,
erased, or set to the metrics field of a poll response whose status is
`completed`. -/
theorem step_metrics_account {c c' : Config} {l : Label} (h : Step c l c') :
    c'.sys.comp.metrics = c.sys.comp.metrics ∨ c'.sys.comp.metrics = none ∨
      ∃ t j m, l = .pollRes t j (.ok "completed" m) ∧ c'.sys.comp.metrics = m := by
  cases h with
  | tick t j hm => exact .inl rfl
  | pollResolve t j r hm =>
      rcases applyPollResult_metrics c.sys r with h1 | ⟨m, rfl, h2⟩
      · exact .inl h1
      · exact .inr (.inr ⟨t, j, m, rfl, h2⟩)
  | submitDenied hmiss => exact .inl rfl
  | submitBegin hmiss => exact .inl rfl
  | submitResolve r hp => exact .inl (submitFinish_metrics c.sys r)
  | clearResolve r =>
      cases r with
      | ok msg =>
          refine .inr (.inl ?_)
          rw [handleClearAll_ok, clearCurrent_comp]
      | thrown m => exact .inl rfl
  | maskResolve r => exact .inl (handleDownloadMask_sys c.sys r).2.2.2
  | viewResolve i r => exact .inl (handleViewModality_sys c.sys i r).2.2.2
  | selectModality m f => exact .inl (setModality_spec _ _ _).2.1
  | unmountTeardown => exact .inl (congrArg ComponentState.metrics (clearCurrent_comp _))

theorem applyPollResult_terminal_clears (s : Sys) (r : PollResult)
    (h : isTerminalPoll r = true) :
    ∀ t0 j, s.comp.pollingRef = some t0 → (t0, j) ∉ (applyPollResult s r).active := by
  intro t0 j href
  cases r with
  | ok st m =>
      by_cases h1 : st = "completed"
      · subst h1
        simp only [applyPollResult, if_pos]
        refine clearCurrent_ref_inactive _ t0 j ?_
        rw [clearCurrent_comp]
        exact href
      · by_cases h2 : st = "error"
        · subst h2
          simp [applyPollResult]
          refine clearCurrent_ref_inactive _ t0 j ?_
          rw [clearCurrent_comp]
          exact href
        · exfalso
          simp [isTerminalPoll, h1, h2] at h
  | thrown m =>
      simp only [applyPollResult]
      refine clearCurrent_ref_inactive _ t0 j ?_
      rw [clearCurrent_comp]
      exact href

theorem applyPollResult_failed_spec (s : Sys) (r : PollResult)
    (h : isFailedPoll r = true) :
    (applyPollResult s r).comp.status = .error ∧
      (applyPollResult s r).comp.error.isSome = true ∧
      refTimerInactive (applyPollResult s r) := by
  cases r with
  | ok st m =>
      have h2 : st = "error" := by simpa [isFailedPoll] using h
      subst h2
      have he : applyPollResult s (.ok "error" m) =
          clearCurrentInterval { s with comp := { s.comp with
            error := some "Processing failed on server.", status := .error } } := by
        simp [applyPollResult]
      rw [he, clearCurrent_comp]
      exact ⟨rfl, rfl, clearCurrent_ref_inactive _⟩
  | thrown m =>
      have he : applyPollResult s (.thrown m) =
          clearCurrentInterval { s with comp := { s.comp with
            error := some (jsOr m "Failed to fetch job status."), status := .error } } := by
        simp [applyPollResult]
      rw [he, clearCurrent_comp]
      exact ⟨rfl, rfl, clearCurrent_ref_inactive _⟩

/-- C1: for every active job, a poll resolution whose response carries
status `completed` moves the job state to `Completed`, stores the metrics
object of that very response verbatim (no field recomputed — in particular
`Total` is whatever the response said, not a sum of parts), and cancels
the referenced polling interval; and no step other than such a
completed-poll resolution ever stores a metrics object. -/
theorem C1_completed_poll_stores_metrics :
    (∀ (cfg c' : Config) (t : Nat) (j : String) (m : Option SegMetrics),
        Step cfg (.pollRes t j (.ok "completed" m)) c' →
        c'.sys.comp.status = .completed ∧ c'.sys.comp.metrics = m ∧
          refTimerInactive c'.sys)
    ∧ (∀ (cfg c' : Config) (l : Label) (m : SegMetrics),
        Step cfg l c' → c'.sys.comp.metrics = some m →
        cfg.sys.comp.metrics = some m ∨
          ∃ t j, l = .pollRes t j (.ok "completed" (some m))) := by
  constructor
  · intro cfg c' t j m hstep
    cases hstep with
    | pollResolve t j r hm =>
        have he : applyPollResult cfg.sys (.ok "completed" m) =
            clearCurrentInterval { cfg.sys with comp := { cfg.sys.comp with
              status := .completed, metrics := m } } := by
          simp [applyPollResult]
        show (applyPollResult cfg.sys (.ok "completed" m)).comp.status = .completed ∧
          (applyPollResult cfg.sys (.ok "completed" m)).comp.metrics = m ∧
          refTimerInactive (applyPollResult cfg.sys (.ok "completed" m))
        rw [he, clearCurrent_comp]
        exact ⟨rfl, rfl, clearCurrent_ref_inactive _⟩
  · intro cfg c' l m hstep hmet
    rcases step_metrics_account hstep with h1 | h1 | ⟨t, j, m', hl, hm'⟩
    · exact .inl (h1 ▸ hmet)
    · rw [h1] at hmet
      exact absurd hmet (by simp)
    · rw [hm'] at hmet
      subst hmet
      exact .inr ⟨t, j, hl⟩

/-- C1 witness: the completed-poll step at `cfgPoll` with `demoMetrics`,
whose `Total` is not the sum of its parts, stores exactly `demoMetrics`. -/
theorem C1_witness :
    (cfgPollDone.sys.comp.status = .completed ∧
      cfgPollDone.sys.comp.metrics = some demoMetrics ∧
      refTimerInactive cfgPollDone.sys) ∧
    demoMetrics.Total.volume_cm3 ≠
      demoMetrics.NCR.volume_cm3 + demoMetrics.ED.volume_cm3 + demoMetrics.ET.volume_cm3 :=
  ⟨C1_completed_poll_stores_metrics.1 cfgPoll cfgPollDone 1 "A" (some demoMetrics)
      (Step.pollResolve cfgPoll 1 "A" _ (by decide)),
   by norm_num [demoMetrics]⟩

/-- C2 as stated is false of the code: after job `A` reaches the terminal
`error` state through a failed re-submission, its interval is still active
and a further status query for `A` is dispatched. -/
theorem C2_counterexample :
    ¬ (∀ (c1 c2 c3 : Config) (t : Nat) (j : String),
        Reachable c1 → TerminalFor j c1 → Steps c1 c2 →
        Step c2 (Label.pollReq t j) c3 → False) := by
  intro h
  exact h cx8 cx8 { cx8 with inFlight := (1, "A") :: cx8.inFlight } 1 "A"
    reach_cx8 ⟨by decide, .inr (by decide)⟩ Relation.ReflTransGen.refl
    (Step.tick cx8 1 "A" (by decide))

/-- C2 (amended): every transition into `Completed` or `Failed` caused by
a poll outcome (server `completed`, server `error`, or thrown transport
error) cancels the referenced interval, which never fires again; a
transition into `Failed` caused by a failed re-submission does not cancel
a previous job's still-active interval. -/
theorem C2_terminal_poll_stops_timer :
    ∀ (cfg c' : Config) (t t0 : Nat) (j : String) (r : PollResult),
      RefBound cfg.sys →
      isTerminalPoll r = true →
      Step cfg (.pollRes t j r) c' →
      cfg.sys.comp.pollingRef = some t0 →
      (∀ j', (t0, j') ∉ c'.sys.active) ∧ NeverTicksAgain t0 c' := by
  intro cfg c' t t0 j r hb hterm hstep href
  cases hstep with
  | pollResolve t j r hm =>
      have hin : ∀ j', (t0, j') ∉ (applyPollResult cfg.sys r).active :=
        fun j' => applyPollResult_terminal_clears cfg.sys r hterm t0 j' href
      have hdead : TimerDead t0 (applyPollResult cfg.sys r) := by
        refine ⟨hin, ?_⟩
        rw [applyPollResult_nextTid]
        exact hb t0 href
      exact ⟨hin, timerDead_neverTicks hdead⟩

/-- C2 witness: the server-`error` poll at `cfgPoll` leaves interval 1
inactive and it never fires again. -/
theorem C2_witness :
    (∀ j', (1, j') ∉ cfgPollErr.sys.active) ∧ NeverTicksAgain 1 cfgPollErr :=
  C2_terminal_poll_stops_timer cfgPoll cfgPollErr 1 1 "A" (.ok "error" none)
    (by intro t ht; simp [cfgPoll, sProc] at ht ⊢; omega)
    (by decide)
    (Step.pollResolve cfgPoll 1 "A" _ (by decide))
    (by decide)

/-- C3 as required by the spec is false of the code: the fixed-interval
timer dispatches a second status query for job `A` while the first is
still unresolved, reaching a configuration with two queries for `A` in
flight. -/
theorem C3_overlapping_polls :
    ¬ (∀ c : Config, Reachable c →
        ∀ j : String, (c.inFlight.filter (fun p => p.2 == j)).length ≤ 1) := by
  intro h
  exact absurd (h dx8 reach_dx8 "A") (by decide)

/-- C4: when any of the four modality files is missing, `handleSubmit`
only records the validation message: it issues no network request, leaves
the timers, the status (hence `Idle` stays `Idle`) and every other cell
unchanged. -/
theorem C4_validation_blocks_submit :
    ∀ (s : Sys) (r : SubmitResult),
      missingAnyModality s.comp = true →
      handleSubmit s r =
          ({ s with comp := { s.comp with error := some validationMessage } }, []) ∧
        (handleSubmit s r).1.comp.status = s.comp.status ∧
        (handleSubmit s r).1.active = s.active ∧
        (handleSubmit s r).2 = [] := by
  intro s r h
  refine ⟨?_, ?_, ?_, ?_⟩ <;> simp [handleSubmit, h]

/-- C4 witness: submitting with only three files selected. -/
theorem C4_witness :
    missingAnyModality sThreeFiles.comp = true ∧
      handleSubmit sThreeFiles (.ok true "A" "P") =
        ({ sThreeFiles with comp :=
            { sThreeFiles.comp with error := some validationMessage } }, []) :=
  ⟨by decide, (C4_validation_blocks_submit sThreeFiles (.ok true "A" "P") (by decide)).1⟩

/-- C5: a poll resolution whose response reports status `error`, or whose
transport threw, moves the state to `Failed` with an error recorded,
cancels the referenced interval on that very poll, and the interval never
fires again — the first failed poll terminates the loop. -/
theorem C5_failed_poll_terminates :
    ∀ (cfg c' : Config) (t : Nat) (j : String) (r : PollResult),
      isFailedPoll r = true →
      Step cfg (.pollRes t j r) c' →
      c'.sys.comp.status = .error ∧ c'.sys.comp.error.isSome = true ∧
        refTimerInactive c'.sys ∧
        (RefBound cfg.sys → ∀ t0, cfg.sys.comp.pollingRef = some t0 →
          NeverTicksAgain t0 c') := by
  intro cfg c' t j r hfail hstep
  cases hstep with
  | pollResolve t j r hm =>
      obtain ⟨h1, h2, h3⟩ := applyPollResult_failed_spec cfg.sys r hfail
      refine ⟨h1, h2, h3, ?_⟩
      intro hb t0 href
      have hterm : isTerminalPoll r = true := by
        cases r with
        | ok st m => simpa [isTerminalPoll, isFailedPoll] using Or.inr hfail
        | thrown m => rfl
      have hdead : TimerDead t0 (applyPollResult cfg.sys r) := by
        refine ⟨fun j' => applyPollResult_terminal_clears cfg.sys r hterm t0 j' href, ?_⟩
        rw [applyPollResult_nextTid]
        exact hb t0 href
      exact timerDead_neverTicks hdead

/-- C5 witness: a thrown poll at `cfgPoll` fails the job and retires
interval 1 for good. -/
theorem C5_witness :
    cfgPollNet.sys.comp.status = .error ∧
      cfgPollNet.sys.comp.error.isSome = true ∧
      refTimerInactive cfgPollNet.sys ∧
      NeverTicksAgain 1 cfgPollNet := by
  have h := C5_failed_poll_terminates cfgPoll cfgPollNet 1 "A" (.thrown "network down")
    (by decide) (Step.pollResolve cfgPoll 1 "A" _ (by decide))
  exact ⟨h.1, h.2.1, h.2.2.1,
    h.2.2.2 (by intro t ht; simp [cfgPoll, sProc] at ht ⊢; omega) 1 (by decide)⟩

/-- C6: `handleClearAll` resets the status, the metrics, the four stored
files and the job id and clears the referenced interval exactly when the
remote clear-all call succeeded; when the call threw, everything but the
error message is left unchanged and the error is surfaced there. -/
theorem C6_clear_atomicity :
    ∀ (s : Sys) (msg m : String),
      ((handleClearAll s (.ok msg)).1.comp.status = .idle ∧
        (handleClearAll s (.ok msg)).1.comp.metrics = none ∧
        (handleClearAll s (.ok msg)).1.comp.t1File = none ∧
        (handleClearAll s (.ok msg)).1.comp.t1gdFile = none ∧
        (handleClearAll s (.ok msg)).1.comp.t2File = none ∧
        (handleClearAll s (.ok msg)).1.comp.flairFile = none ∧
        (handleClearAll s (.ok msg)).1.comp.jobId = none ∧
        refTimerInactive (handleClearAll s (.ok msg)).1 ∧
        (handleClearAll s (.ok msg)).2 = [.clearAll])
      ∧ ((handleClearAll s (.thrown m)).1.comp.status = s.comp.status ∧
        (handleClearAll s (.thrown m)).1.comp.metrics = s.comp.metrics ∧
        (handleClearAll s (.thrown m)).1.comp.t1File = s.comp.t1File ∧
        (handleClearAll s (.thrown m)).1.comp.t1gdFile = s.comp.t1gdFile ∧
        (handleClearAll s (.thrown m)).1.comp.t2File = s.comp.t2File ∧
        (handleClearAll s (.thrown m)).1.comp.flairFile = s.comp.flairFile ∧
        (handleClearAll s (.thrown m)).1.comp.jobId = s.comp.jobId ∧
        (handleClearAll s (.thrown m)).1.active = s.active ∧
        (handleClearAll s (.thrown m)).1.comp.error =
          some (jsOr m "Failed to clear data.") ∧
        (handleClearAll s (.thrown m)).2 = [.clearAll]) := by
  intro s msg m
  refine ⟨⟨?_, ?_, ?_, ?_, ?_, ?_, ?_, ?_, rfl⟩,
          rfl, rfl, rfl, rfl, rfl, rfl, rfl, rfl, rfl, rfl⟩
  · rw [handleClearAll_ok, clearCurrent_comp]
  · rw [handleClearAll_ok, clearCurrent_comp]
  · rw [handleClearAll_ok, clearCurrent_comp]
  · rw [handleClearAll_ok, clearCurrent_comp]
  · rw [handleClearAll_ok, clearCurrent_comp]
  · rw [handleClearAll_ok, clearCurrent_comp]
  · rw [handleClearAll_ok, clearCurrent_comp]
  · rw [handleClearAll_ok]
    exact clearCurrent_ref_inactive _

/-- C7 as stated is false of the code: invoking `handleSubmit` while job
`A` is `Processing` does not cancel the existing interval on the failure
path — after a thrown submission the previous timer is still active. -/
theorem C7_counterexample :
    ¬ (∀ (s : Sys) (r : SubmitResult),
        s.comp.status = JobStatus.processing →
        ∀ t j, (t, j) ∈ s.active → (t, j) ∉ (handleSubmit s r).1.active) := by
  intro h
  exact h sProc (.thrown "boom") (by decide) 1 "A" (by decide) (by decide)

/-- C7 (amended): at most one interval is active in any reachable
configuration, and a successful submission retires the previously
referenced interval the moment polling starts for the new job; but the
previous interval is cancelled only on the success path of the new
submission, after its response arrives — not before the submission
proceeds, and not on its failure paths. -/
theorem C7_single_timer :
    (∀ c : Config, Reachable c → c.sys.active.length ≤ 1)
    ∧ (∀ (s : Sys) (jid pid : String) (t : Nat) (j : String),
        missingAnyModality s.comp = false →
        s.comp.pollingRef = some t → t < s.nextTid →
        (t, j) ∉ (handleSubmit s (.ok true jid pid)).1.active) := by
  constructor
  · intro c hreach
    rcases timerInv_reachable hreach with h | ⟨t, j, _, h⟩ <;> simp [h]
  · intro s jid pid t j hmiss href hlt hmem
    simp only [handleSubmit, hmiss, Bool.false_eq_true, if_false] at hmem
    rw [submitFinish_ok_true_active] at hmem
    rcases List.mem_cons.mp hmem with h1 | h1
    · have h2 := congrArg Prod.fst h1
      simp [submitStart] at h2
      omega
    · refine clearCurrent_ref_inactive _ t j ?_ h1
      rw [clearCurrent_comp]
      exact href

/-- C7 witness: the reachable configuration `cx6` has one active interval,
and a successful re-submission at `sProc` retires interval 1. -/
theorem C7_witness :
    cx6.sys.active.length ≤ 1 ∧
      (1, "A") ∉ (handleSubmit sProc (.ok true "B" "Q")).1.active :=
  ⟨C7_single_timer.1 cx6 reach_cx6,
   C7_single_timer.2 sProc "B" "Q" 1 "A" (by decide) (by decide) (by decide)⟩

/-- C8 as stated is false of the code: with a stored job id and a failed
(not completed) status, `handleDownloadMask` still issues the download
request. -/
theorem C8_counterexample :
    ¬ (∀ (s : Sys) (r : Except ApiError (List Nat)) (i : Fin 4),
        s.comp.status ≠ JobStatus.completed →
        (handleDownloadMask s r).2 = [] ∧ (handleViewModality s i r).2 = []) := by
  intro h
  exact absurd (h sFailed (.ok []) 0 (by decide)).1 (by decide)

/-- C8 (amended): the artifact handlers guard only on the presence of a
(truthy) job id: with no job id they return silently, issuing no request
and raising no error; with one they issue the request regardless of the
job status. -/
theorem C8_guard_is_job_presence :
    ∀ (s : Sys) (r : Except ApiError (List Nat)) (i : Fin 4),
      (s.comp.jobId = none →
        handleDownloadMask s r = (s, []) ∧ handleViewModality s i r = (s, []))
      ∧ (∀ j, s.comp.jobId = some j → j ≠ "" →
          (handleDownloadMask s r).2 = [.downloadMask j] ∧
          (handleViewModality s i r).2 = [.viewModality j i]) := by
  intro s r i
  constructor
  · intro hj
    constructor <;> simp [handleDownloadMask, handleViewModality, hj]
  · intro j hj hne
    cases r <;> constructor <;>
      simp [handleDownloadMask, handleViewModality, hj, hne]

/-- C8 witness: with no job id both handlers are silent no-ops; with job
id `J1` in the failed state both issue their requests. -/
theorem C8_witness :
    (handleDownloadMask sNoJob (.ok []) = (sNoJob, []) ∧
      handleViewModality sNoJob 0 (.ok []) = (sNoJob, [])) ∧
    ((handleDownloadMask sFailed (.ok [])).2 = [.downloadMask "J1"] ∧
      (handleViewModality sFailed 0 (.ok [])).2 = [.viewModality "J1" 0]) :=
  ⟨(C8_guard_is_job_presence sNoJob (.ok []) 0).1 (by decide),
   (C8_guard_is_job_presence sFailed (.ok []) 0).2 "J1" (by decide) (by decide)⟩

/-- C9: on every `ok` response, `download3DSegmentationMask` returns the
body exactly when the declared content kind includes
`application/octet-stream`, and otherwise fails with the invalid-format
error instead of returning the payload. -/
theorem C9_mask_format_check :
    ∀ r : HttpResp, r.ok = true →
      (declaredOctetStream r.contentType = true →
          download3DSegmentationMask (.response r) = .ok r.body)
      ∧ (declaredOctetStream r.contentType = false →
          download3DSegmentationMask (.response r) =
            .error (.format 500 invalidFormatMessage)) := by
  intro r hok
  constructor <;> intro hct <;> simp [download3DSegmentationMask, hok, hct]

/-- C9 witness: an octet-stream response yields its body; a JSON response
yields the invalid-format error. -/
theorem C9_witness :
    download3DSegmentationMask (.response okResp) = .ok okResp.body ∧
      download3DSegmentationMask (.response badResp) =
        .error (.format 500 invalidFormatMessage) :=
  ⟨(C9_mask_format_check okResp (by decide)).1 (by decide),
   (C9_mask_format_check badResp (by decide)).2 (by decide)⟩

/-- C10: `view3DModality` returns the body of every `ok` response
whatever its declared content kind, and never fails with the
invalid-format error. -/
theorem C10_view_returns_any_kind :
    (∀ r : HttpResp, r.ok = true → view3DModality (.response r) = .ok r.body)
    ∧ (∀ (o : FetchOutcome) (st : Nat) (m : String),
        view3DModality o ≠ .error (.format st m)) := by
  constructor
  · intro r h
    simp [view3DModality, h]
  · intro o st m
    cases o with
    | fetchFailed msg => simp [view3DModality]
    | response r =>
        by_cases h : r.ok <;> simp [view3DModality, h]

/-- C10 witness: an HTML-kinded `ok` response still yields its body, and a
transport failure is not a format error. -/
theorem C10_witness :
    view3DModality (.response weirdResp) = .ok weirdResp.body ∧
      view3DModality (.fetchFailed "x") ≠ .error (.format 500 invalidFormatMessage) :=
  ⟨C10_view_returns_any_kind.1 weirdResp (by decide),
   C10_view_returns_any_kind.2 (.fetchFailed "x") 500 invalidFormatMessage⟩

end Predict3D
